import Mathlib

/-!
Shallow embedding of the schedule-crawler pipeline (instructor mode in
`main.py`, student mode in `student_schedule_crawler.py`, calendar export in
`ics_exporter.py` / `student_ics_exporter.py`), together with proofs about the
properties its specification states.

Python strings are modelled as `List Char` (with `String` wrappers where
convenient); Python's `str.split`, `str.replace`, `str.strip` and `int()` are
embedded as executable Lean functions below.  Python exceptions are modelled
with `Except String` and `Option`.
-/

/-- Characters treated as whitespace by the embedded `str.strip()`. -/
def isPySpace (c : Char) : Bool :=
  c = ' ' || c = '\t' || c = '\n' || c = '\r' || c = '\x0b' || c = '\x0c'

/-- Embedded `str.strip()`: drop whitespace from both ends. -/
def pyStripL (cs : List Char) : List Char :=
  ((cs.dropWhile isPySpace).reverse.dropWhile isPySpace).reverse

/-- Boolean prefix test on character lists. -/
def isPre : List Char → List Char → Bool
  | [], _ => true
  | _ :: _, [] => false
  | a :: as_, b :: bs => a = b && isPre as_ bs

/-- Embedded `str.split(sep)` worker: scans left to right; on a separator match
it emits a part boundary and consumes the separator (the `skip` counter eats
the separator's tail so the recursion stays structural). -/
def splitGo (sep : List Char) : List Char → Nat → List (List Char)
  | [], _ => [[]]
  | _ :: rest, Nat.succ skip => splitGo sep rest skip
  | c :: rest, 0 =>
    if isPre sep (c :: rest) then
      [] :: splitGo sep rest (sep.length - 1)
    else
      match splitGo sep rest 0 with
      | p :: ps => (c :: p) :: ps
      | [] => [[c]]

/-- Embedded `str.split(sep)` for a non-empty separator. -/
def pySplitL (sep cs : List Char) : List (List Char) := splitGo sep cs 0

/-- Embedded `str.replace(pat, rep)` worker (non-overlapping, left to right). -/
def replaceGo (pat rep : List Char) : List Char → Nat → List Char
  | [], _ => []
  | _ :: rest, Nat.succ skip => replaceGo pat rep rest skip
  | c :: rest, 0 =>
    if isPre pat (c :: rest) then
      rep ++ replaceGo pat rep rest (pat.length - 1)
    else
      c :: replaceGo pat rep rest 0

/-- Embedded `str.replace(pat, rep)` for a non-empty pattern. -/
def pyReplaceL (pat rep cs : List Char) : List Char := replaceGo pat rep cs 0

/-- Value of a string of decimal digits (underscores already removed). -/
def digitsVal (cs : List Char) : Nat :=
  cs.foldl (fun a c => 10 * a + (c.toNat - 48)) 0

/-- Digit-group check of Python's `int()`: a non-empty run of decimal digits in
which an underscore may appear only between two digits. -/
def digitsOk : List Char → Bool
  | [] => false
  | [c] => c.isDigit
  | c :: c2 :: rest =>
    c.isDigit && (if c2 = '_' then digitsOk rest else digitsOk (c2 :: rest))

/-- Embedded `int(s)`: strip whitespace, optional sign, digit group. -/
def pyIntL (cs : List Char) : Option Int :=
  match pyStripL cs with
  | [] => none
  | c :: rest =>
    if c = '+' then
      if digitsOk rest then
        some (Int.ofNat (digitsVal (rest.filter (fun x => x ≠ '_'))))
      else none
    else if c = '-' then
      if digitsOk rest then
        some (-(Int.ofNat (digitsVal (rest.filter (fun x => x ≠ '_')))))
      else none
    else
      if digitsOk (c :: rest) then
        some (Int.ofNat (digitsVal ((c :: rest).filter (fun x => x ≠ '_'))))
      else none

/-- A list of characters writes the natural number `n` in plain decimal. -/
def IsDecimalRepr (cs : List Char) (n : Nat) : Prop :=
  cs ≠ [] ∧ (∀ c ∈ cs, c.isDigit = true) ∧ digitsVal cs = n

namespace ScheduleCrawler

/-- Embedding of `ScheduleCrawler._parse_period` (`main.py`): split on `"->"`,
convert both parts with `int()`; any failure is caught and yields `(0, 0)`. -/
def _parse_period (cs : List Char) : Int × Int :=
  match pySplitL ['-', '>'] cs with
  | [a, b] =>
    match pyIntL a, pyIntL b with
    | some x, some y => (x, y)
    | _, _ => (0, 0)
  | _ => (0, 0)

/-- The period text resolves: it splits on `"->"` into exactly two parts that
both parse as Python integers. -/
def Resolvable (cs : List Char) : Prop :=
  ∃ a b x y, pySplitL ['-', '>'] cs = [a, b] ∧ pyIntL a = some x ∧ pyIntL b = some y

end ScheduleCrawler

namespace StudentScheduleCrawler

/-- Embedding of `StudentScheduleCrawler._parse_period`
(`student_schedule_crawler.py`): strip the `"- Tiết:"` label, split on `"-"`,
convert both parts with `int()`; any failure is caught and yields `(0, 0)`. -/
def _parse_period (cs : List Char) : Int × Int :=
  match pySplitL ['-'] (pyStripL (pyReplaceL "- Tiết:".data [] cs)) with
  | [a, b] =>
    match pyIntL a, pyIntL b with
    | some x, some y => (x, y)
    | _, _ => (0, 0)
  | _ => (0, 0)

/-- The cleaned period text resolves into two Python integers. -/
def Resolvable (cs : List Char) : Prop :=
  ∃ a b x y,
    pySplitL ['-'] (pyStripL (pyReplaceL "- Tiết:".data [] cs)) = [a, b] ∧
    pyIntL a = some x ∧ pyIntL b = some y

end StudentScheduleCrawler

/-- Zero-pad a number to two digits, as `strftime` does for `%H`/`%M`/`%d`/`%m`. -/
def pad2 (n : Nat) : String := if n < 10 then "0" ++ toString n else toString n

/-- Zero-pad a year to four digits, as `strftime` does for `%Y`. -/
def pad4 (n : Nat) : String :=
  if n < 10 then "000" ++ toString n
  else if n < 100 then "00" ++ toString n
  else if n < 1000 then "0" ++ toString n
  else toString n

/-- Render minutes since midnight as `"HH:MM"` (the `strftime("%H:%M")` of the
source, for times within one day). -/
def hhmm (m : Nat) : String := pad2 (m / 60) ++ ":" ++ pad2 (m % 60)

namespace StudentScheduleCrawler

/-- One block of `_initialize_period_map`'s loop: starting at `start` minutes,
each listed period occupies 45 minutes and is followed by a break of
`brk p` minutes before the next one. -/
def mkBlock (brk : Int → Nat) : Nat → List Int → List (Int × Nat × Nat)
  | _, [] => []
  | start, p :: ps => (p, start, start + 45) :: mkBlock brk (start + 45 + brk p) ps

/-- Embedding of `StudentScheduleCrawler._initialize_period_map`, with times in
minutes since midnight: morning periods 1–6 from 07:30 (20-minute break after
period 3, 5 minutes otherwise), afternoon periods 7–10 from 13:00 (10-minute
break after period 8), evening periods 11–14 from 16:40 with a flat 50-minute
stride. -/
def periodsMin : List (Int × Nat × Nat) :=
  mkBlock (fun p => if p = 3 then 20 else 5) (7 * 60 + 30) [1, 2, 3, 4, 5, 6] ++
  mkBlock (fun p => if p = 8 then 10 else 5) (13 * 60) [7, 8, 9, 10] ++
  mkBlock (fun _ => 5) (16 * 60 + 40) [11, 12, 13, 14]

/-- The period map as stored by the source: period index to
(`"HH:MM"` start, `"HH:MM"` end). -/
def period_map (p : Int) : Option (String × String) :=
  (periodsMin.lookup p).map (fun t => (hhmm t.1, hhmm t.2))

end StudentScheduleCrawler

/-- Instructor-mode session record (`ClassSession` in `main.py`). -/
structure ClassSession where
  subject : String
  class_code : String
  class_name : String
  period : String
  period_begin : Int
  period_end : Int
  taught_lessons : String
  room : String
  content : String
  deriving DecidableEq

/-- Instructor-mode day record (`DaySchedule` in `main.py`). -/
structure DaySchedule where
  morning : List ClassSession
  afternoon : List ClassSession
  evening : List ClassSession
  deriving DecidableEq

/-- Instructor-mode week metadata (`WeekInfo` in `main.py`). -/
structure WeekInfo where
  week_number : Int
  start_date : String
  end_date : String
  professor_name : String
  deriving DecidableEq

/-- Student-mode session record (`StudentSession` in
`student_schedule_crawler.py`). -/
structure StudentSession where
  subject : String
  class_code : String
  class_name : String
  period : String
  period_begin : Int
  period_end : Int
  time_begin : String
  time_end : String
  room : String
  teacher_name : String
  deriving DecidableEq

/-- One inline node of a table cell's parse tree: the crawler only looks at
`span` elements (their text) and `hr` separators. -/
inductive Block where
  | span (text : String)
  | hr
  deriving DecidableEq

/-- A table cell is the ordered list of its `span`/`hr` descendants. -/
abbrev Cell := List Block

/-- `cell.find_all('span')`, as the list of span texts in document order. -/
def cellSpans (c : Cell) : List String :=
  c.filterMap fun b => match b with | .span t => some t | .hr => none

/-- A fetched page, reduced to what both crawlers inspect: the first `table`
(as rows of `td` cells, header row included), if any, and the spans of the
`div` with `style='font-weight:bold'`, if present. -/
structure HtmlPage where
  table : Option (List (List Cell))
  headerSpans : Option (List String)

/-- The fixed day-name sequence shared by both crawlers. -/
def weekDays : List String :=
  ["Thứ 2", "Thứ 3", "Thứ 4", "Thứ 5", "Thứ 6", "Thứ 7", "Chủ nhật"]

/-- Wrap an optional parse result as the source's
`[x] if x else []` pattern does. -/
def optList : Option α → List α
  | some a => [a]
  | none => []

namespace ScheduleCrawler

/-- Embedding of `ScheduleCrawler._parse_class_cell`: a cell with no span, or
with fewer than 7 spans, yields no session; otherwise the 7 leading spans are
read positionally, stripping each field's fixed label prefix. -/
def _parse_class_cell (cell : Cell) : Option ClassSession :=
  if (cellSpans cell).isEmpty then none
  else
    match cellSpans cell with
    | s0 :: s1 :: s2 :: s3 :: s4 :: s5 :: s6 :: _ =>
      let periodStr := pyStripL (pyReplaceL "-Tiết:".data [] s3.data)
      let pb := (_parse_period periodStr).1
      let pe := (_parse_period periodStr).2
      some
        { subject := String.mk (pyStripL s0.data)
          class_code := String.mk (pyStripL (pyReplaceL "-Mã LHP:".data [] s1.data))
          class_name := String.mk (pyStripL (pyReplaceL "-Lớp:".data [] s2.data))
          period := String.mk periodStr
          period_begin := pb
          period_end := pe
          taught_lessons := String.mk (pyStripL (pyReplaceL "-Đã dạy:".data [] s4.data))
          room := String.mk (pyStripL (pyReplaceL "-Phòng :".data [] s5.data))
          content := String.mk (pyStripL (pyReplaceL "-Nội dung :".data [] s6.data)) }
    | _ => none

/-- Embedding of `ScheduleCrawler.parse_schedule`'s row loop: each data row is
paired with a day name; a row must expose at least three `td` cells, reading a
missing cell raises an uncaught `IndexError`. -/
def rowsLoop : List (List Cell × String) → Except String (List (String × DaySchedule))
  | [] => .ok []
  | (row, day) :: rest =>
    match row with
    | c0 :: c1 :: c2 :: _ =>
      match rowsLoop rest with
      | .error e => .error e
      | .ok tail =>
        .ok ((day,
          { morning := optList (_parse_class_cell c0)
            afternoon := optList (_parse_class_cell c1)
            evening := optList (_parse_class_cell c2) }) :: tail)
    | _ => .error "IndexError: list index out of range"

/-- Embedding of `ScheduleCrawler.parse_schedule`: `soup.find('table')` coming
back `None` makes `.find_all('tr')` raise an uncaught `AttributeError`;
otherwise the header row is skipped and the remaining rows are zipped with the
fixed day names. -/
def parse_schedule (page : HtmlPage) : Except String (List (String × DaySchedule)) :=
  match page.table with
  | none => .error "AttributeError: NoneType object has no attribute find_all"
  | some rows => rowsLoop ((rows.drop 1).zip weekDays)

/-- Total number of sessions in a parsed instructor schedule. -/
def sessionCount (sched : List (String × DaySchedule)) : Nat :=
  (sched.map (fun d =>
    d.2.morning.length + d.2.afternoon.length + d.2.evening.length)).sum

end ScheduleCrawler

namespace StudentScheduleCrawler

/-- Embedding of `StudentScheduleCrawler._create_session_from_spans`: fewer
than 6 spans yield no session; otherwise the 6 leading spans are read
positionally, the period label is parsed, and the period indices are resolved
through the period map with `"00:00"` as out-of-range sentinel. -/
def _create_session_from_spans (spans : List String) : Option StudentSession :=
  match spans with
  | s0 :: s1 :: s2 :: s3 :: s4 :: s5 :: _ =>
    let periodStr := pyStripL s3.data
    let pb := (_parse_period periodStr).1
    let pe := (_parse_period periodStr).2
    some
      { subject := String.mk (pyStripL s0.data)
        class_code := String.mk (pyStripL (pyReplaceL "- Nhóm:".data [] s1.data))
        class_name := String.mk (pyStripL (pyReplaceL "- Lớp:".data [] s2.data))
        period := String.mk periodStr
        period_begin := pb
        period_end := pe
        time_begin := match period_map pb with | some t => t.1 | none => "00:00"
        time_end := match period_map pe with | some t => t.2 | none => "00:00"
        room := String.mk (pyStripL (pyReplaceL "- Phòng:".data [] s4.data))
        teacher_name := String.mk (pyStripL (pyReplaceL "- GV:".data [] s5.data)) }
  | _ => none

/-- Embedding of `_parse_class_cell`'s grouping loop: spans accumulate into the
current run, an `hr` closes the run (emitting a session if the run parses), and
the final run is flushed at the end. -/
def cellLoop : List Block → List String → List StudentSession
  | [], cur =>
    if cur.isEmpty then [] else optList (_create_session_from_spans cur)
  | .hr :: rest, cur =>
    (if cur.isEmpty then [] else optList (_create_session_from_spans cur)) ++
      cellLoop rest []
  | .span t :: rest, cur => cellLoop rest (cur ++ [t])

/-- Embedding of `StudentScheduleCrawler._parse_class_cell`: a cell with no
span yields no sessions; otherwise runs delimited by `hr` are each parsed. -/
def _parse_class_cell (cell : Cell) : List StudentSession :=
  if (cellSpans cell).isEmpty then [] else cellLoop cell []

end StudentScheduleCrawler

/-- Try to read a `re` match of `\d{2}/\d{2}/\d{4}` at the head of the text. -/
def dateAt : List Char → Option String
  | d1 :: d2 :: '/' :: m1 :: m2 :: '/' :: y1 :: y2 :: y3 :: y4 :: _ =>
    if d1.isDigit && d2.isDigit && m1.isDigit && m2.isDigit &&
        y1.isDigit && y2.isDigit && y3.isDigit && y4.isDigit then
      some (String.mk [d1, d2, '/', m1, m2, '/', y1, y2, y3, y4])
    else none
  | _ => none

/-- Worker for `re.findall(r'\d{2}/\d{2}/\d{4}', text)`: left-to-right,
non-overlapping scan (`skip` consumes the tail of a match structurally). -/
def datesGo : List Char → Nat → List String
  | [], _ => []
  | _ :: rest, Nat.succ skip => datesGo rest skip
  | c :: rest, 0 =>
    match dateAt (c :: rest) with
    | some d => d :: datesGo rest 9
    | none => datesGo rest 0

/-- All non-overlapping `DD/MM/YYYY` matches, in order. -/
def findAllDates (cs : List Char) : List String := datesGo cs 0

/-- The digit characters of the text before the first `":"`, as collected by
`filter(str.isdigit, text.split(':')[0])`. -/
def weekNumDigits (cs : List Char) : List Char :=
  ((pySplitL [':'] cs).headD []).filter Char.isDigit

namespace ScheduleCrawler

/-- The all-unknown sentinel returned when header parsing fails. -/
def unknownWeekInfo : WeekInfo :=
  { week_number := 0
    start_date := "Unknown"
    end_date := "Unknown"
    professor_name := "Unknown" }

/-- Embedding of `ScheduleCrawler._extract_week_info`: the whole body runs in a
`try` whose handler returns `unknownWeekInfo`; a missing header `div`, fewer
than two spans, a digit-free week run (`int('')`), or fewer than two
`DD/MM/YYYY` matches all fall into the handler. -/
def _extract_week_info (page : HtmlPage) : WeekInfo :=
  match page.headerSpans with
  | none => unknownWeekInfo
  | some spans =>
    match spans with
    | s0 :: s1 :: _ =>
      let weekSpan := pyStripL s0.data
      let ds := weekNumDigits weekSpan
      if ds.isEmpty then unknownWeekInfo
      else
        match findAllDates weekSpan with
        | d1 :: d2 :: _ =>
          { week_number := Int.ofNat (digitsVal ds)
            start_date := d1
            end_date := d2
            professor_name :=
              String.mk (pyStripL (pyReplaceL "Thời khóa biểu giảng viên:".data []
                (pyStripL s1.data))) }
        | _ => unknownWeekInfo
    | _ => unknownWeekInfo

/-- All conditions under which some step of `_extract_week_info`'s body raises
(or, for the date count, explicitly raises `ValueError`). -/
def HeaderFails (page : HtmlPage) : Prop :=
  page.headerSpans = none ∨
  (∃ spans, page.headerSpans = some spans ∧ spans.length < 2) ∨
  (∃ s0 s1 rest, page.headerSpans = some (s0 :: s1 :: rest) ∧
    (weekNumDigits (pyStripL s0.data) = [] ∨
      (findAllDates (pyStripL s0.data)).length < 2))

end ScheduleCrawler

/-- A JSON-like nested-mapping value, the shape of the persisted schedule
structure. -/
inductive Val where
  | str (s : String)
  | int (n : Int)
  | list (xs : List Val)
  | obj (fields : List (String × Val))

/-- Field access on an object value. -/
def Val.get? (v : Val) (k : String) : Option Val :=
  match v with
  | .obj fields => fields.lookup k
  | _ => none

/-- Python truthiness for the values that reach the exporters. -/
def Val.isTruthy : Val → Bool
  | .str s => s ≠ ""
  | .int n => n ≠ 0
  | .list xs => ¬xs.isEmpty
  | .obj fields => ¬fields.isEmpty

/-- Python `str()` of a value interpolated into an f-string. -/
def Val.pyStr : Val → String
  | .str s => s
  | .int n => toString n
  | .list _ => "[...]"
  | .obj _ => "{...}"

namespace StudentScheduleCrawler

/-- Embedding of `StudentSession.to_dict`, key for key in source order. -/
def to_dict (s : StudentSession) : Val :=
  .obj
    [("subject", .str s.subject),
     ("class_code", .str s.class_code),
     ("class_name", .str s.class_name),
     ("period", .str s.period),
     ("period_begin", .int s.period_begin),
     ("period_end", .int s.period_end),
     ("time_begin", .str s.time_begin),
     ("time_end", .str s.time_end),
     ("room", .str s.room),
     ("teacher_name", .str s.teacher_name)]

/-- Embedding of `StudentScheduleCrawler.parse_schedule`: a missing table is a
hard failure; otherwise data rows are zipped with the day names, rows with
fewer than three cells are skipped, and each kept day maps to the three slots'
serialized sessions. -/
def parse_schedule (page : HtmlPage) : Except String (List (String × Val)) :=
  match page.table with
  | none => .error "Schedule table not found in HTML content"
  | some rows =>
    .ok (((rows.drop 1).zip weekDays).filterMap fun rd =>
      match rd.1 with
      | c0 :: c1 :: c2 :: _ =>
        some (rd.2, Val.obj
          [("morning", .list ((_parse_class_cell c0).map to_dict)),
           ("afternoon", .list ((_parse_class_cell c1).map to_dict)),
           ("evening", .list ((_parse_class_cell c2).map to_dict))])
      | _ => none)

/-- Embedding of `StudentScheduleCrawler._extract_metadata`: unlike the
instructor crawler there is no `try` here, so a missing header `div`
(`AttributeError`), fewer than two spans (`IndexError`) or a digit-free week
run (`ValueError`) propagate to the caller; missing dates degrade to `""`. -/
def _extract_metadata (page : HtmlPage) : Except String Val :=
  match page.headerSpans with
  | none => .error "AttributeError: NoneType object has no attribute find_all"
  | some spans =>
    match spans with
    | s0 :: s1 :: _ =>
      let weekInfo := pyStripL s0.data
      let ds := weekNumDigits weekInfo
      if ds.isEmpty then .error "ValueError: invalid literal for int"
      else
        let dates := findAllDates weekInfo
        .ok (.obj
          [("week_number", .int (Int.ofNat (digitsVal ds))),
           ("start_date", .str (dates.headD "")),
           ("end_date", .str ((dates.drop 1).headD "")),
           ("class_name", .str (String.mk (pyStripL
             (pyReplaceL "Thời khóa biểu lớp:".data [] (pyStripL s1.data)))))])
    | _ => .error "IndexError: list index out of range"

end StudentScheduleCrawler

namespace ScheduleCrawler

/-- `asdict` of a `ClassSession`, fields in declaration order. -/
def classSessionDict (s : ClassSession) : Val :=
  .obj
    [("subject", .str s.subject),
     ("class_code", .str s.class_code),
     ("class_name", .str s.class_name),
     ("period", .str s.period),
     ("period_begin", .int s.period_begin),
     ("period_end", .int s.period_end),
     ("taught_lessons", .str s.taught_lessons),
     ("room", .str s.room),
     ("content", .str s.content)]

/-- `asdict` of a `WeekInfo`, fields in declaration order. -/
def weekInfoDict (w : WeekInfo) : Val :=
  .obj
    [("week_number", .int w.week_number),
     ("start_date", .str w.start_date),
     ("end_date", .str w.end_date),
     ("professor_name", .str w.professor_name)]

/-- The day-level mapping built by `to_json_structure`. -/
def dayScheduleDict (d : DaySchedule) : Val :=
  .obj
    [("morning", .list (d.morning.map classSessionDict)),
     ("afternoon", .list (d.afternoon.map classSessionDict)),
     ("evening", .list (d.evening.map classSessionDict))]

/-- The nested mapping `{"metadata": ..., "schedule": ...}` for given metadata
and schedule. -/
def jsonStructureVal (w : WeekInfo) (sched : List (String × DaySchedule)) : Val :=
  .obj
    [("metadata", weekInfoDict w),
     ("schedule", .obj (sched.map fun d => (d.1, dayScheduleDict d.2)))]

/-- Embedding of `ScheduleCrawler.to_json_structure`: extract the week info
from the page (with its degrade-to-unknown policy) and serialize. -/
def to_json_structure (sched : List (String × DaySchedule)) (page : HtmlPage) : Val :=
  jsonStructureVal (_extract_week_info page) sched

end ScheduleCrawler

/-- A calendar date. -/
structure Date where
  day : Nat
  month : Nat
  year : Nat
  deriving DecidableEq

/-- Gregorian leap-year rule. -/
def isLeap (y : Nat) : Bool := (y % 4 = 0 && y % 100 ≠ 0) || y % 400 = 0

/-- Days in a month of a given year. -/
def daysInMonth (m y : Nat) : Nat :=
  if m = 2 then (if isLeap y then 29 else 28)
  else if m = 4 ∨ m = 6 ∨ m = 9 ∨ m = 11 then 30
  else 31

/-- The calendar day after a date. -/
def nextDay (d : Date) : Date :=
  if d.day < daysInMonth d.month d.year then ⟨d.day + 1, d.month, d.year⟩
  else if d.month < 12 then ⟨1, d.month + 1, d.year⟩
  else ⟨1, 1, d.year + 1⟩

/-- `date + timedelta(days=n)`. -/
def addDays : Date → Nat → Date
  | d, 0 => d
  | d, Nat.succ n => addDays (nextDay d) n

/-- `strftime("%d/%m/%Y")`. -/
def formatDMY (d : Date) : String :=
  pad2 d.day ++ "/" ++ pad2 d.month ++ "/" ++ pad4 d.year

/-- Embedding of `datetime.strptime(s, "%d/%m/%Y")`: three `/`-separated
numeric fields (day and month of one or two digits, four-digit year) forming a
valid calendar date. -/
def strptimeDMY (s : String) : Option Date :=
  match pySplitL ['/'] s.data with
  | [d, m, y] =>
    if d ≠ [] ∧ d.length ≤ 2 ∧ (∀ c ∈ d, c.isDigit = true) ∧
        m ≠ [] ∧ m.length ≤ 2 ∧ (∀ c ∈ m, c.isDigit = true) ∧
        y.length = 4 ∧ (∀ c ∈ y, c.isDigit = true) then
      let dv := digitsVal d
      let mv := digitsVal m
      let yv := digitsVal y
      if 1 ≤ mv ∧ mv ≤ 12 ∧ 1 ≤ dv ∧ dv ≤ daysInMonth mv yv then
        some ⟨dv, mv, yv⟩
      else none
    else none
  | _ => none

namespace ICSExporter

/-- The fixed timezone identifier (`self.timezone`). -/
def timezone : String := "Asia/Ho_Chi_Minh"

/-- Embedding of `ICSExporter._format_datetime`: reorder the `/`-separated
date into `YYYYMMDD` (an `IndexError` on fewer than three parts propagates)
and append `T` plus the colon-free time and seconds. -/
def _format_datetime (dateStr timeStr : String) : Except String String :=
  match pySplitL ['/'] dateStr.data with
  | p0 :: p1 :: p2 :: _ =>
    .ok (String.mk p2 ++ String.mk p1 ++ String.mk p0 ++ "T" ++
      String.mk (pyReplaceL [':'] [] timeStr.data) ++ "00")
  | _ => .error "IndexError: list index out of range"

/-- The Vietnamese day-name to day-offset mapping of both exporters. -/
def day_map : List (String × Nat) :=
  [("Thứ 2", 0), ("Thứ 3", 1), ("Thứ 4", 2),
   ("Thứ 5", 3), ("Thứ 6", 4), ("Thứ 7", 5),
   ("Chủ nhật", 6)]

/-- Look a key up in a session mapping; a missing key raises `KeyError`. -/
def getKey (v : Val) (k : String) : Except String Val :=
  match v.get? k with
  | some u => .ok u
  | none => .error ("KeyError: " ++ k)

/-- Build one `VEVENT` block for a session (teacher variant: the description's
last line is the taught-lesson count).  `uid` is the identifier injected for
this event and `stamp` the `DTSTAMP` value. -/
def eventLines (uid stamp dateStr : String) (session : Val) :
    Except String (List String) :=
  match getKey session "time_begin" with
  | .error e => .error e
  | .ok tb =>
  match _format_datetime dateStr tb.pyStr with
  | .error e => .error e
  | .ok startDt =>
  match getKey session "time_end" with
  | .error e => .error e
  | .ok te =>
  match _format_datetime dateStr te.pyStr with
  | .error e => .error e
  | .ok endDt =>
  match getKey session "class_code" with
  | .error e => .error e
  | .ok cc =>
  match getKey session "class_name" with
  | .error e => .error e
  | .ok cn =>
  match getKey session "period" with
  | .error e => .error e
  | .ok per =>
  match getKey session "taught_lessons" with
  | .error e => .error e
  | .ok tl =>
  match getKey session "subject" with
  | .error e => .error e
  | .ok subj =>
  match getKey session "room" with
  | .error e => .error e
  | .ok room =>
    .ok
      ["BEGIN:VEVENT",
       "UID:" ++ uid,
       "DTSTAMP:" ++ stamp,
       "DTSTART;TZID=" ++ timezone ++ ":" ++ startDt,
       "DTEND;TZID=" ++ timezone ++ ":" ++ endDt,
       "SUMMARY:" ++ subj.pyStr,
       "LOCATION:" ++ room.pyStr,
       "DESCRIPTION:" ++
         "Mã lớp: " ++ cc.pyStr ++ "\\n" ++
         "Lớp: " ++ cn.pyStr ++ "\\n" ++
         "Tiết: " ++ per.pyStr ++ "\\n" ++
         "Đã dạy: " ++ tl.pyStr,
       "STATUS:CONFIRMED",
       "SEQUENCE:0",
       "END:VEVENT"]

/-- Emit the events of one slot's session list; falsy (empty) sessions are
skipped.  `uids` injects the per-event identifiers, `i` is the index of the
next event. -/
def slotLines (uids : Nat → String) (stamp dateStr : String) :
    List Val → Nat → Except String (List String × Nat)
  | [], i => .ok ([], i)
  | s :: rest, i =>
    if s.isTruthy = false then slotLines uids stamp dateStr rest i
    else
      match eventLines (uids i) stamp dateStr s with
      | .error e => .error e
      | .ok ev =>
        match slotLines uids stamp dateStr rest (i + 1) with
        | .error e => .error e
        | .ok (lines, i2) => .ok (ev ++ lines, i2)

/-- Read one slot's session list from the day mapping (a missing slot key
raises `KeyError`, a non-list value fails iteration). -/
def getSlot (dayVal : Val) (k : String) : Except String (List Val) :=
  match getKey dayVal k with
  | .error e => .error e
  | .ok (.list xs) => .ok xs
  | .ok _ => .error "TypeError: not iterable"

/-- Emit all events of one day, slots in `morning, afternoon, evening`
order. -/
def dayLines (uids : Nat → String) (stamp dateStr : String) (dayVal : Val)
    (i : Nat) : Except String (List String × Nat) :=
  match getSlot dayVal "morning" with
  | .error e => .error e
  | .ok ms =>
  match slotLines uids stamp dateStr ms i with
  | .error e => .error e
  | .ok (l1, i1) =>
  match getSlot dayVal "afternoon" with
  | .error e => .error e
  | .ok as_ =>
  match slotLines uids stamp dateStr as_ i1 with
  | .error e => .error e
  | .ok (l2, i2) =>
  match getSlot dayVal "evening" with
  | .error e => .error e
  | .ok es =>
  match slotLines uids stamp dateStr es i2 with
  | .error e => .error e
  | .ok (l3, i3) => .ok (l1 ++ l2 ++ l3, i3)

/-- Emit all events of the schedule: each day name is resolved through
`day_map` (an unknown day raises `KeyError`), its absolute date computed from
the base date, and its slots processed in order. -/
def daysLines (uids : Nat → String) (stamp : String) (base : Date) :
    List (String × Val) → Nat → Except String (List String × Nat)
  | [], i => .ok ([], i)
  | (day, dv) :: rest, i =>
    match day_map.lookup day with
    | none => .error ("KeyError: " ++ day)
    | some off =>
      match dayLines uids stamp (formatDMY (addDays base off)) dv i with
      | .error e => .error e
      | .ok (l1, i1) =>
        match daysLines uids stamp base rest i1 with
        | .error e => .error e
        | .ok (l2, i2) => .ok (l1 ++ l2, i2)

/-- The fixed opening block of the instructor calendar document. -/
def calendarHead : List String :=
  ["BEGIN:VCALENDAR",
   "PRODID:-//DalatCoder//Schedule Exporter//EN",
   "VERSION:2.0",
   "CALSCALE:GREGORIAN",
   "METHOD:PUBLISH",
   "X-WR-TIMEZONE:" ++ timezone]

/-- Embedding of `ICSExporter._generate_ics_content` with the identifier
source and creation timestamp injected: read metadata and schedule, parse the
base date from `metadata['start_date']`, emit every day's events, and join all
lines with CRLF. -/
def _generate_ics_content (uids : Nat → String) (stamp : String) (data : Val) :
    Except String String :=
  match getKey data "metadata" with
  | .error e => .error e
  | .ok md =>
  match getKey data "schedule" with
  | .error e => .error e
  | .ok sched =>
  match getKey md "start_date" with
  | .error e => .error e
  | .ok sd =>
  match sd with
  | .str sdStr =>
    match strptimeDMY sdStr with
    | none => .error ("ValueError: time data " ++ sdStr ++
        " does not match format %d/%m/%Y")
    | some base =>
      match sched with
      | .obj entries =>
        match daysLines uids stamp base entries 0 with
        | .error e => .error e
        | .ok (evs, _) =>
          .ok (String.intercalate "\r\n" (calendarHead ++ evs ++ ["END:VCALENDAR"]))
      | _ => .error "AttributeError: items"
  | _ => .error "TypeError: strptime argument must be str"

/-- Embedding of `ICSExporter.create_ics_content_from_data`: any exception in
generation is wrapped in a `Failed to create ICS content` error. -/
def create_ics_content_from_data (uids : Nat → String) (stamp : String)
    (data : Val) : Except String String :=
  match _generate_ics_content uids stamp data with
  | .ok s => .ok s
  | .error e => .error ("Failed to create ICS content: " ++ e)

end ICSExporter

namespace StudentICSExporter

/-- Build one `VEVENT` block for a student session: identical to the teacher
variant except that the description's last line names the teacher. -/
def eventLines (uid stamp dateStr : String) (session : Val) :
    Except String (List String) :=
  match ICSExporter.getKey session "time_begin" with
  | .error e => .error e
  | .ok tb =>
  match ICSExporter._format_datetime dateStr tb.pyStr with
  | .error e => .error e
  | .ok startDt =>
  match ICSExporter.getKey session "time_end" with
  | .error e => .error e
  | .ok te =>
  match ICSExporter._format_datetime dateStr te.pyStr with
  | .error e => .error e
  | .ok endDt =>
  match ICSExporter.getKey session "class_code" with
  | .error e => .error e
  | .ok cc =>
  match ICSExporter.getKey session "class_name" with
  | .error e => .error e
  | .ok cn =>
  match ICSExporter.getKey session "period" with
  | .error e => .error e
  | .ok per =>
  match ICSExporter.getKey session "teacher_name" with
  | .error e => .error e
  | .ok tn =>
  match ICSExporter.getKey session "subject" with
  | .error e => .error e
  | .ok subj =>
  match ICSExporter.getKey session "room" with
  | .error e => .error e
  | .ok room =>
    .ok
      ["BEGIN:VEVENT",
       "UID:" ++ uid,
       "DTSTAMP:" ++ stamp,
       "DTSTART;TZID=" ++ ICSExporter.timezone ++ ":" ++ startDt,
       "DTEND;TZID=" ++ ICSExporter.timezone ++ ":" ++ endDt,
       "SUMMARY:" ++ subj.pyStr,
       "LOCATION:" ++ room.pyStr,
       "DESCRIPTION:" ++
         "Mã lớp: " ++ cc.pyStr ++ "\\n" ++
         "Lớp: " ++ cn.pyStr ++ "\\n" ++
         "Tiết: " ++ per.pyStr ++ "\\n" ++
         "Giảng viên: " ++ tn.pyStr,
       "STATUS:CONFIRMED",
       "SEQUENCE:0",
       "END:VEVENT"]

/-- Emit the events of one slot's session list (student variant). -/
def slotLines (uids : Nat → String) (stamp dateStr : String) :
    List Val → Nat → Except String (List String × Nat)
  | [], i => .ok ([], i)
  | s :: rest, i =>
    if s.isTruthy = false then slotLines uids stamp dateStr rest i
    else
      match eventLines (uids i) stamp dateStr s with
      | .error e => .error e
      | .ok ev =>
        match slotLines uids stamp dateStr rest (i + 1) with
        | .error e => .error e
        | .ok (lines, i2) => .ok (ev ++ lines, i2)

/-- Emit all events of one day (student variant). -/
def dayLines (uids : Nat → String) (stamp dateStr : String) (dayVal : Val)
    (i : Nat) : Except String (List String × Nat) :=
  match ICSExporter.getSlot dayVal "morning" with
  | .error e => .error e
  | .ok ms =>
  match slotLines uids stamp dateStr ms i with
  | .error e => .error e
  | .ok (l1, i1) =>
  match ICSExporter.getSlot dayVal "afternoon" with
  | .error e => .error e
  | .ok as_ =>
  match slotLines uids stamp dateStr as_ i1 with
  | .error e => .error e
  | .ok (l2, i2) =>
  match ICSExporter.getSlot dayVal "evening" with
  | .error e => .error e
  | .ok es =>
  match slotLines uids stamp dateStr es i2 with
  | .error e => .error e
  | .ok (l3, i3) => .ok (l1 ++ l2 ++ l3, i3)

/-- Emit all events of the schedule (student variant). -/
def daysLines (uids : Nat → String) (stamp : String) (base : Date) :
    List (String × Val) → Nat → Except String (List String × Nat)
  | [], i => .ok ([], i)
  | (day, dv) :: rest, i =>
    match ICSExporter.day_map.lookup day with
    | none => .error ("KeyError: " ++ day)
    | some off =>
      match dayLines uids stamp (formatDMY (addDays base off)) dv i with
      | .error e => .error e
      | .ok (l1, i1) =>
        match daysLines uids stamp base rest i1 with
        | .error e => .error e
        | .ok (l2, i2) => .ok (l1 ++ l2, i2)

/-- The fixed opening block of the student calendar document. -/
def calendarHead : List String :=
  ["BEGIN:VCALENDAR",
   "PRODID:-//DalatCoder//Student Schedule Exporter//EN",
   "VERSION:2.0",
   "CALSCALE:GREGORIAN",
   "METHOD:PUBLISH",
   "X-WR-TIMEZONE:" ++ ICSExporter.timezone]

/-- Embedding of `StudentICSExporter._generate_ics_content` (the override),
identifiers and timestamp injected. -/
def _generate_ics_content (uids : Nat → String) (stamp : String) (data : Val) :
    Except String String :=
  match ICSExporter.getKey data "metadata" with
  | .error e => .error e
  | .ok md =>
  match ICSExporter.getKey data "schedule" with
  | .error e => .error e
  | .ok sched =>
  match ICSExporter.getKey md "start_date" with
  | .error e => .error e
  | .ok sd =>
  match sd with
  | .str sdStr =>
    match strptimeDMY sdStr with
    | none => .error ("ValueError: time data " ++ sdStr ++
        " does not match format %d/%m/%Y")
    | some base =>
      match sched with
      | .obj entries =>
        match daysLines uids stamp base entries 0 with
        | .error e => .error e
        | .ok (evs, _) =>
          .ok (String.intercalate "\r\n" (calendarHead ++ evs ++ ["END:VCALENDAR"]))
      | _ => .error "AttributeError: items"
  | _ => .error "TypeError: strptime argument must be str"

/-- The inherited `create_ics_content_from_data`, dispatching to the student
override and wrapping any exception. -/
def create_ics_content_from_data (uids : Nat → String) (stamp : String)
    (data : Val) : Except String String :=
  match _generate_ics_content uids stamp data with
  | .ok s => .ok s
  | .error e => .error ("Failed to create ICS content: " ++ e)

end StudentICSExporter

namespace ScheduleCrawler

/-- Modelled from the spec: the instructor crawler actually driving the GUI
pipeline (`schedule_crawler.py`, imported by `app.py` but not among the given
sources; `src/main.py` is the standalone variant without time fields) resolves
each session's period range to wall-clock times through the shared Period
Table and serializes them as `time_begin`/`time_end` alongside the `asdict`
fields, which both `app.py` and `ics_exporter.py` read back by those keys. -/
def enrichedSessionDict (s : ClassSession) : Val :=
  .obj
    [("subject", .str s.subject),
     ("class_code", .str s.class_code),
     ("class_name", .str s.class_name),
     ("period", .str s.period),
     ("period_begin", .int s.period_begin),
     ("period_end", .int s.period_end),
     ("taught_lessons", .str s.taught_lessons),
     ("room", .str s.room),
     ("content", .str s.content),
     ("time_begin", .str (match StudentScheduleCrawler.period_map s.period_begin with
        | some t => t.1 | none => "00:00")),
     ("time_end", .str (match StudentScheduleCrawler.period_map s.period_end with
        | some t => t.2 | none => "00:00"))]

/-- Modelled from the spec: the day-level mapping of the GUI pipeline, with
time-enriched sessions. -/
def enrichedDayDict (d : DaySchedule) : Val :=
  .obj
    [("morning", .list (d.morning.map enrichedSessionDict)),
     ("afternoon", .list (d.afternoon.map enrichedSessionDict)),
     ("evening", .list (d.evening.map enrichedSessionDict))]

/-- Modelled from the spec: the full nested mapping handed to the calendar
generator by the GUI pipeline — metadata extracted with the degrade policy,
sessions carrying their Period Table times. -/
def enrichedJsonStructure (page : HtmlPage) : Except String Val :=
  match parse_schedule page with
  | .error e => .error e
  | .ok sched =>
    .ok (.obj
      [("metadata", weekInfoDict (_extract_week_info page)),
       ("schedule", .obj (sched.map fun d => (d.1, enrichedDayDict d.2)))])

end ScheduleCrawler

/-- Evaluate an option-returning reader across a list, failing if any element
fails. -/
def omap (f : Val → Option α) : List Val → Option (List α)
  | [] => some []
  | v :: vs =>
    match f v, omap f vs with
    | some a, some as_ => some (a :: as_)
    | _, _ => none

/-- Read a string field of a serialized mapping. -/
def getS (v : Val) (k : String) : Option String :=
  match v.get? k with
  | some (.str s) => some s
  | _ => none

/-- Read an integer field of a serialized mapping. -/
def getI (v : Val) (k : String) : Option Int :=
  match v.get? k with
  | some (.int n) => some n
  | _ => none

namespace ScheduleCrawler

/-- Modelled from the spec: re-reading one serialized instructor session from
the nested-mapping form, field by field under the fixed key names (the
repository itself only reads fields individually, e.g. in `app.py` and
`ics_exporter.py`). -/
def sessionOfDict (v : Val) : Option ClassSession :=
  match getS v "subject", getS v "class_code", getS v "class_name",
      getS v "period", getI v "period_begin", getI v "period_end",
      getS v "taught_lessons", getS v "room", getS v "content" with
  | some su, some cc, some cn, some pe, some pb, some pen, some tl, some ro,
      some co =>
    some
      { subject := su, class_code := cc, class_name := cn, period := pe
        period_begin := pb, period_end := pen, taught_lessons := tl
        room := ro, content := co }
  | _, _, _, _, _, _, _, _, _ => none

/-- Modelled from the spec: re-reading one serialized slot (a list of
sessions). -/
def slotOfVal (v : Val) : Option (List ClassSession) :=
  match v with
  | .list xs => omap sessionOfDict xs
  | _ => none

/-- Modelled from the spec: re-reading a serialized day mapping. -/
def dayScheduleOfDict (v : Val) : Option DaySchedule :=
  match v.get? "morning", v.get? "afternoon", v.get? "evening" with
  | some m, some a, some e =>
    match slotOfVal m, slotOfVal a, slotOfVal e with
    | some ms, some as_, some es =>
      some { morning := ms, afternoon := as_, evening := es }
    | _, _, _ => none
  | _, _, _ => none

/-- Modelled from the spec: re-reading the serialized week metadata. -/
def weekInfoOfDict (v : Val) : Option WeekInfo :=
  match getI v "week_number", getS v "start_date", getS v "end_date",
      getS v "professor_name" with
  | some wn, some sd, some ed, some pn =>
    some { week_number := wn, start_date := sd, end_date := ed
           professor_name := pn }
  | _, _, _, _ => none

/-- Modelled from the spec: re-reading the serialized day entries in order. -/
def entriesOfList : List (String × Val) → Option (List (String × DaySchedule))
  | [] => some []
  | (day, dv) :: rest =>
    match dayScheduleOfDict dv, entriesOfList rest with
    | some ds, some tail => some ((day, ds) :: tail)
    | _, _ => none

/-- Modelled from the spec: re-reading the serialized day-keyed schedule. -/
def scheduleOfVal (v : Val) : Option (List (String × DaySchedule)) :=
  match v with
  | .obj entries => entriesOfList entries
  | _ => none

/-- Modelled from the spec: re-reading the whole persisted
`{"metadata": ..., "schedule": ...}` mapping. -/
def weeklyOfJson (v : Val) : Option (WeekInfo × List (String × DaySchedule)) :=
  match v.get? "metadata", v.get? "schedule" with
  | some mv, some sv =>
    match weekInfoOfDict mv, scheduleOfVal sv with
    | some w, some sched => some (w, sched)
    | _, _ => none
  | _, _ => none

end ScheduleCrawler

namespace StudentScheduleCrawler

/-- Modelled from the spec: re-reading one serialized student session from the
nested-mapping form produced by `StudentSession.to_dict`. -/
def sessionOfDict (v : Val) : Option StudentSession :=
  match getS v "subject", getS v "class_code", getS v "class_name",
      getS v "period", getI v "period_begin", getI v "period_end",
      getS v "time_begin", getS v "time_end", getS v "room",
      getS v "teacher_name" with
  | some su, some cc, some cn, some pe, some pb, some pen, some tb, some te,
      some ro, some tn =>
    some
      { subject := su, class_code := cc, class_name := cn, period := pe
        period_begin := pb, period_end := pen, time_begin := tb
        time_end := te, room := ro, teacher_name := tn }
  | _, _, _, _, _, _, _, _, _, _ => none

/-- Start minute of a period, `0` outside the table. -/
def startOfPeriod (p : Int) : Nat :=
  ((periodsMin.lookup p).map (fun t => t.1)).getD 0

/-- End minute of a period, `0` outside the table. -/
def endOfPeriod (p : Int) : Nat :=
  ((periodsMin.lookup p).map (fun t => t.2)).getD 0

end StudentScheduleCrawler

/-- Number of occurrences of a non-empty pattern in a text. -/
def countSub (s pat : String) : Nat := (pySplitL pat.data s.data).length - 1

/-- The instructor-mode page of the end-to-end scenario: a header row plus two
data rows (Thứ 2, Thứ 3) of three cells each, where only the Thứ 2 morning
cell carries 7 well-formed fields, and a header block placing the week at
10/02/2025 – 16/02/2025. -/
def c1Page : HtmlPage :=
  { table := some
      [[],
       [[Block.span "Toán", Block.span "-Mã LHP:C01", Block.span "-Lớp:K45",
         Block.span "-Tiết:1->2", Block.span "-Đã dạy:10",
         Block.span "-Phòng :P101", Block.span "-Nội dung :"], [], []],
       [[], [], []]]
    headerSpans := some
      ["Tuần 25: Từ ngày 10/02/2025 đến ngày 16/02/2025",
       "Thời khóa biểu giảng viên: Nguyễn Văn A"] }

/-- The single session the scenario's Thứ 2 morning cell parses to. -/
def c1Session : ClassSession :=
  { subject := "Toán", class_code := "C01", class_name := "K45"
    period := "1->2", period_begin := 1, period_end := 2
    taught_lessons := "10", room := "P101", content := "" }

/-- The weekly schedule the scenario parses to. -/
def c1Sched : List (String × DaySchedule) :=
  [("Thứ 2", { morning := [c1Session], afternoon := [], evening := [] }),
   ("Thứ 3", { morning := [], afternoon := [], evening := [] })]

/-- The injected identifier source used to pin down the scenario's output. -/
def c1Uids : Nat → String := fun n => "UID" ++ toString n

/-- The injected creation timestamp of the scenario. -/
def c1Stamp : String := "20250101T000000Z"

/-- The lines of the calendar document the scenario must generate. -/
def c1DocLines : List String :=
  ["BEGIN:VCALENDAR",
   "PRODID:-//DalatCoder//Schedule Exporter//EN",
   "VERSION:2.0",
   "CALSCALE:GREGORIAN",
   "METHOD:PUBLISH",
   "X-WR-TIMEZONE:Asia/Ho_Chi_Minh",
   "BEGIN:VEVENT",
   "UID:UID0",
   "DTSTAMP:20250101T000000Z",
   "DTSTART;TZID=Asia/Ho_Chi_Minh:20250210T073000",
   "DTEND;TZID=Asia/Ho_Chi_Minh:20250210T090500",
   "SUMMARY:Toán",
   "LOCATION:P101",
   "DESCRIPTION:Mã lớp: C01\\nLớp: K45\\nTiết: 1->2\\nĐã dạy: 10",
   "STATUS:CONFIRMED",
   "SEQUENCE:0",
   "END:VEVENT",
   "END:VCALENDAR"]

/-- The calendar document the scenario must generate. -/
def c1Doc : String := String.intercalate "\r\n" c1DocLines

/-!  Helper lemmas about the embedded string primitives. -/

theorem isPre_append_self (l t : List Char) :
    isPre l (l ++ t) = true := by
  induction l with
  | nil => rfl
  | cons a l ih => simp [isPre, ih]

theorem splitGo_no_head (s0 : Char) (s' cs : List Char)
    (h : ∀ c ∈ cs, c ≠ s0) : splitGo (s0 :: s') cs 0 = [cs] := by
  induction cs with
  | nil => rfl
  | cons c rest ih =>
    have hc : (s0 == c) = false :=
      beq_eq_false_iff_ne.mpr (Ne.symm (h c (List.mem_cons_self c rest)))
    have hpre : isPre (s0 :: s') (c :: rest) = false := by
      simp [isPre]
      intro e
      exact absurd e.symm (h c (List.mem_cons_self c rest))
    have ih2 := ih (fun x hx => h x (List.mem_cons_of_mem c hx))
    simp [splitGo, hpre, ih2]

theorem splitGo_skip (sep s1 db : List Char) :
    splitGo sep (s1 ++ db) s1.length = splitGo sep db 0 := by
  induction s1 with
  | nil => rfl
  | cons a s1' ih => simpa [splitGo] using ih

theorem splitGo_boundary (s0 : Char) (s' da db : List Char)
    (h : ∀ c ∈ da, c ≠ s0) :
    splitGo (s0 :: s') (da ++ s0 :: (s' ++ db)) 0 =
      da :: splitGo (s0 :: s') db 0 := by
  induction da with
  | nil =>
    have hpre : isPre (s0 :: s') (s0 :: (s' ++ db)) = true := by
      simpa using isPre_append_self (s0 :: s') db
    have hskip := splitGo_skip (s0 :: s') s' db
    simp [splitGo, hpre, hskip]
  | cons a da' ih =>
    have hpre : isPre (s0 :: s')
        (a :: (da' ++ s0 :: (s' ++ db))) = false := by
      simp [isPre]
      intro e
      exact absurd e.symm (h a (List.mem_cons_self a da'))
    have ih2 := ih (fun x hx => h x (List.mem_cons_of_mem a hx))
    simp [splitGo, hpre, ih2]

theorem pySplitL_sandwich (s0 : Char) (s' da db : List Char)
    (h1 : ∀ c ∈ da, c ≠ s0) (h2 : ∀ c ∈ db, c ≠ s0) :
    pySplitL (s0 :: s') (da ++ (s0 :: s') ++ db) = [da, db] := by
  unfold pySplitL
  rw [List.append_assoc, List.cons_append,
    splitGo_boundary s0 s' da db h1, splitGo_no_head s0 s' db h2]

theorem replaceGo_no_space (p' rep cs : List Char)
    (h : ∀ c ∈ cs, c ≠ ' ') : replaceGo ('-' :: ' ' :: p') rep cs 0 = cs := by
  induction cs with
  | nil => rfl
  | cons c rest ih =>
    have hpre : isPre ('-' :: ' ' :: p') (c :: rest) = false := by
      cases rest with
      | nil => simp [isPre]
      | cons b rs =>
        simp [isPre]
        intro _ e
        exact absurd e.symm (h b (by simp))
    have ih2 := ih (fun x hx => h x (List.mem_cons_of_mem c hx))
    simp [replaceGo, hpre, ih2]

theorem dropWhile_of_neg (p : Char → Bool) (cs : List Char)
    (h : ∀ c ∈ cs, p c = false) : cs.dropWhile p = cs := by
  cases cs with
  | nil => rfl
  | cons c rest => simp [List.dropWhile_cons, h c (by simp)]

theorem pyStripL_id (cs : List Char) (h : ∀ c ∈ cs, isPySpace c = false) :
    pyStripL cs = cs := by
  unfold pyStripL
  rw [dropWhile_of_neg _ _ h,
    dropWhile_of_neg _ _ (fun c hc => h c (List.mem_reverse.mp hc)),
    List.reverse_reverse]

theorem isPySpace_digit {c : Char} (h : c.isDigit = true) :
    isPySpace c = false := by
  cases hsp : isPySpace c with
  | false => rfl
  | true =>
    exfalso
    simp only [isPySpace, Bool.or_eq_true, decide_eq_true_eq] at hsp
    rcases hsp with ((((h1 | h1) | h1) | h1) | h1) | h1 <;> subst h1 <;>
      exact absurd h (by decide)

theorem digit_ne_char {c : Char} (h : c.isDigit = true) {d : Char}
    (hd : d.isDigit = false) : c ≠ d := by
  intro e
  rw [e, hd] at h
  exact Bool.false_ne_true h

theorem digitsOk_all :
    ∀ cs : List Char, cs ≠ [] → (∀ c ∈ cs, c.isDigit = true) →
      digitsOk cs = true
  | [], h, _ => absurd rfl h
  | [c], _, h2 => by simp [digitsOk, h2 c (by simp)]
  | c :: c2 :: rest, _, h2 => by
    have hc : c.isDigit = true := h2 c (by simp)
    have hc2 : c2.isDigit = true := h2 c2 (by simp)
    have hne : c2 ≠ '_' := digit_ne_char hc2 (by decide)
    have ih := digitsOk_all (c2 :: rest) (by simp)
      (fun x hx => h2 x (List.mem_cons_of_mem c hx))
    simp [digitsOk, hc, hne, ih]

theorem pyIntL_decimal {cs : List Char} {n : Nat} (h : IsDecimalRepr cs n) :
    pyIntL cs = some (Int.ofNat n) := by
  obtain ⟨hne, hdig, hval⟩ := h
  have hstrip : pyStripL cs = cs :=
    pyStripL_id cs (fun c hc => isPySpace_digit (hdig c hc))
  unfold pyIntL
  rw [hstrip]
  cases cs with
  | nil => exact absurd rfl hne
  | cons c rest =>
    have hc : c.isDigit = true := hdig c (by simp)
    have h1 : c ≠ '+' := digit_ne_char hc (by decide)
    have h2 : c ≠ '-' := digit_ne_char hc (by decide)
    have hok : digitsOk (c :: rest) = true :=
      digitsOk_all _ (by simp) hdig
    have hfil : (c :: rest).filter (fun x => x ≠ '_') = c :: rest :=
      List.filter_eq_self.mpr
        (fun a ha => decide_eq_true (digit_ne_char (hdig a ha) (by decide)))
    simp only [if_neg h1, if_neg h2, hok, if_true, hfil, hval]

/-!  Lemmas about the two period-label parsers. -/

theorem inst_parse_eq (cs a b : List Char) (x y : Int)
    (hs : pySplitL ['-', '>'] cs = [a, b])
    (hx : pyIntL a = some x) (hy : pyIntL b = some y) :
    ScheduleCrawler._parse_period cs = (x, y) := by
  unfold ScheduleCrawler._parse_period
  rw [hs]
  simp [hx, hy]

theorem student_parse_eq (cs a b : List Char) (x y : Int)
    (hs : pySplitL ['-'] (pyStripL (pyReplaceL "- Tiết:".data [] cs)) = [a, b])
    (hx : pyIntL a = some x) (hy : pyIntL b = some y) :
    StudentScheduleCrawler._parse_period cs = (x, y) := by
  unfold StudentScheduleCrawler._parse_period
  rw [hs]
  simp [hx, hy]

theorem inst_parse_shape (cs : List Char) :
    (∃ a b x y, pySplitL ['-', '>'] cs = [a, b] ∧ pyIntL a = some x ∧
      pyIntL b = some y ∧ ScheduleCrawler._parse_period cs = (x, y)) ∨
    ScheduleCrawler._parse_period cs = (0, 0) := by
  cases hs : pySplitL ['-', '>'] cs with
  | nil => exact .inr (by unfold ScheduleCrawler._parse_period; rw [hs])
  | cons a t =>
    cases t with
    | nil => exact .inr (by unfold ScheduleCrawler._parse_period; rw [hs])
    | cons b t2 =>
      cases t2 with
      | cons u v =>
        exact .inr (by unfold ScheduleCrawler._parse_period; rw [hs])
      | nil =>
        cases hx : pyIntL a with
        | none =>
          refine .inr ?_
          unfold ScheduleCrawler._parse_period
          rw [hs]
          simp [hx]
        | some x =>
          cases hy : pyIntL b with
          | none =>
            refine .inr ?_
            unfold ScheduleCrawler._parse_period
            rw [hs]
            simp [hx, hy]
          | some y =>
            exact .inl ⟨a, b, x, y, rfl, hx, hy, inst_parse_eq cs a b x y hs hx hy⟩

theorem student_parse_shape (cs : List Char) :
    (∃ a b x y,
      pySplitL ['-'] (pyStripL (pyReplaceL "- Tiết:".data [] cs)) = [a, b] ∧
      pyIntL a = some x ∧ pyIntL b = some y ∧
      StudentScheduleCrawler._parse_period cs = (x, y)) ∨
    StudentScheduleCrawler._parse_period cs = (0, 0) := by
  cases hs : pySplitL ['-'] (pyStripL (pyReplaceL "- Tiết:".data [] cs)) with
  | nil => exact .inr (by unfold StudentScheduleCrawler._parse_period; rw [hs])
  | cons a t =>
    cases t with
    | nil => exact .inr (by unfold StudentScheduleCrawler._parse_period; rw [hs])
    | cons b t2 =>
      cases t2 with
      | cons u v =>
        exact .inr (by unfold StudentScheduleCrawler._parse_period; rw [hs])
      | nil =>
        cases hx : pyIntL a with
        | none =>
          refine .inr ?_
          unfold StudentScheduleCrawler._parse_period
          rw [hs]
          simp [hx]
        | some x =>
          cases hy : pyIntL b with
          | none =>
            refine .inr ?_
            unfold StudentScheduleCrawler._parse_period
            rw [hs]
            simp [hx, hy]
          | some y =>
            exact .inl ⟨a, b, x, y, rfl, hx, hy,
              student_parse_eq cs a b x y hs hx hy⟩

theorem inst_parse_sentinel (cs : List Char)
    (h : ¬ ScheduleCrawler.Resolvable cs) :
    ScheduleCrawler._parse_period cs = (0, 0) := by
  rcases inst_parse_shape cs with ⟨a, b, x, y, hs, hx, hy, _⟩ | he
  · exact absurd ⟨a, b, x, y, hs, hx, hy⟩ h
  · exact he

theorem student_parse_sentinel (cs : List Char)
    (h : ¬ StudentScheduleCrawler.Resolvable cs) :
    StudentScheduleCrawler._parse_period cs = (0, 0) := by
  rcases student_parse_shape cs with ⟨a, b, x, y, hs, hx, hy, _⟩ | he
  · exact absurd ⟨a, b, x, y, hs, hx, hy⟩ h
  · exact he

theorem inst_parse_decimal (da db : List Char) (A B : Nat)
    (ha : IsDecimalRepr da A) (hb : IsDecimalRepr db B) :
    ScheduleCrawler._parse_period (da ++ '-' :: '>' :: db) =
      (Int.ofNat A, Int.ofNat B) := by
  have hsplit : pySplitL ['-', '>'] (da ++ ['-', '>'] ++ db) = [da, db] :=
    pySplitL_sandwich '-' ['>'] da db
      (fun c hc => digit_ne_char (ha.2.1 c hc) (by decide))
      (fun c hc => digit_ne_char (hb.2.1 c hc) (by decide))
  have hform : da ++ ['-', '>'] ++ db = da ++ '-' :: '>' :: db := by
    rw [List.append_assoc]
    rfl
  rw [hform] at hsplit
  exact inst_parse_eq _ da db _ _ hsplit (pyIntL_decimal ha) (pyIntL_decimal hb)

theorem student_parse_decimal (da db : List Char) (A B : Nat)
    (ha : IsDecimalRepr da A) (hb : IsDecimalRepr db B) :
    StudentScheduleCrawler._parse_period (da ++ '-' :: db) =
      (Int.ofNat A, Int.ofNat B) := by
  have hkind : ∀ c ∈ da ++ '-' :: db, c.isDigit = true ∨ c = '-' := by
    intro c hc
    rcases List.mem_append.mp hc with h | h
    · exact .inl (ha.2.1 c h)
    · rcases List.mem_cons.mp h with rfl | h
      · exact .inr rfl
      · exact .inl (hb.2.1 c h)
  have hnospace : ∀ c ∈ da ++ '-' :: db, c ≠ ' ' := by
    intro c hc
    rcases hkind c hc with h | h
    · exact digit_ne_char h (by decide)
    · subst h; decide
  have hns : ∀ c ∈ da ++ '-' :: db, isPySpace c = false := by
    intro c hc
    rcases hkind c hc with h | h
    · exact isPySpace_digit h
    · subst h; decide
  have hrep : pyReplaceL "- Tiết:".data [] (da ++ '-' :: db) = da ++ '-' :: db := by
    have hp : "- Tiết:".data = '-' :: ' ' :: "Tiết:".data := rfl
    unfold pyReplaceL
    rw [hp]
    exact replaceGo_no_space _ _ _ hnospace
  have hstrip : pyStripL (da ++ '-' :: db) = da ++ '-' :: db := pyStripL_id _ hns
  have hsplit : pySplitL ['-'] (da ++ ['-'] ++ db) = [da, db] :=
    pySplitL_sandwich '-' [] da db
      (fun c hc => digit_ne_char (ha.2.1 c hc) (by decide))
      (fun c hc => digit_ne_char (hb.2.1 c hc) (by decide))
  have hform : da ++ ['-'] ++ db = da ++ '-' :: db := by
    rw [List.append_assoc]
    rfl
  rw [hform] at hsplit
  refine student_parse_eq _ da db _ _ ?_ (pyIntL_decimal ha) (pyIntL_decimal hb)
  rw [hrep, hstrip, hsplit]

/-- C3 counterexample: for the integer pair A = -1 ≤ B = 0 the student-mode
label `"-1-0"` does not parse to `(-1, 0)`; the sign makes the split yield
three parts, so the parser falls back to the `(0, 0)` sentinel. -/
theorem student_negative_label_counterexample :
    StudentScheduleCrawler._parse_period "-1-0".data = (0, 0) ∧
    (-1 : Int) ≤ 0 ∧
    StudentScheduleCrawler._parse_period "-1-0".data ≠ (-1, 0) := by
  refine ⟨by decide, by decide, by decide⟩

/-- C3 (amended): for every pair of nonnegative integers A ≤ B written in
plain decimal, the instructor label `"A->B"` and the student label `"A-B"`
each parse to `(A, B)`; any input whose (cleaned) text does not split on the
separator into exactly two Python integer literals parses to `(0, 0)`, and
both parsers are total, never propagating an exception. -/
theorem period_label_parsing_amended :
    (∀ (A B : Nat) (da db : List Char), IsDecimalRepr da A → IsDecimalRepr db B →
      A ≤ B →
      ScheduleCrawler._parse_period (da ++ '-' :: '>' :: db) =
        (Int.ofNat A, Int.ofNat B) ∧
      StudentScheduleCrawler._parse_period (da ++ '-' :: db) =
        (Int.ofNat A, Int.ofNat B)) ∧
    (∀ cs, ¬ ScheduleCrawler.Resolvable cs →
      ScheduleCrawler._parse_period cs = (0, 0)) ∧
    (∀ cs, ¬ StudentScheduleCrawler.Resolvable cs →
      StudentScheduleCrawler._parse_period cs = (0, 0)) := by
  refine ⟨fun A B da db ha hb _ => ⟨inst_parse_decimal da db A B ha hb,
    student_parse_decimal da db A B ha hb⟩, inst_parse_sentinel,
    student_parse_sentinel⟩

/-- Witness for the amended C3 theorem at A = 1, B = 2 and at the shapeless
input `"abc"`. -/
theorem period_label_parsing_amended_witness :
    ScheduleCrawler._parse_period "1->2".data = (1, 2) ∧
    StudentScheduleCrawler._parse_period "1-2".data = (1, 2) ∧
    ScheduleCrawler._parse_period "abc".data = (0, 0) := by
  have h := period_label_parsing_amended
  have h1 := h.1 1 2 ['1'] ['2'] ⟨by decide, by decide, by decide⟩
    ⟨by decide, by decide, by decide⟩ (by decide)
  have h2 := h.2.1 "abc".data (by
    rintro ⟨a, b, x, y, hs, -, -⟩
    rw [show pySplitL ['-', '>'] "abc".data = [['a', 'b', 'c']] from rfl] at hs
    simp at hs)
  exact ⟨h1.1, h1.2, h2⟩

/-- C5 counterexample: a cell whose period text `"2->1"` is resolvable
produces a session with `period_begin = 2 > 1 = period_end`, so resolvability
alone does not give `period_begin ≤ period_end`. -/
theorem descending_period_counterexample :
    ScheduleCrawler.Resolvable "2->1".data ∧
    ScheduleCrawler._parse_class_cell
      [Block.span "X", Block.span "-Mã LHP:C01", Block.span "-Lớp:K45",
       Block.span "-Tiết:2->1", Block.span "-Đã dạy:5",
       Block.span "-Phòng :P1", Block.span "-Nội dung :x"] =
      some { subject := "X", class_code := "C01", class_name := "K45"
             period := "2->1", period_begin := 2, period_end := 1
             taught_lessons := "5", room := "P1", content := "x" } ∧
    ¬((2 : Int) ≤ 1) := by
  refine ⟨⟨['2'], ['1'], 2, 1, rfl, rfl, rfl⟩, by decide, by decide⟩

/-- C5 (amended): every session either parser produces carries exactly the
period pair its period text parses to — resolvable text gives exactly the two
written integers, which satisfy `period_begin ≤ period_end` only when the
label itself is nondecreasing — while unresolvable text gives the sentinel
`(0, 0)`; and producing the sentinel never aborts the cell parse, which
succeeds on every cell with enough fields. -/
theorem session_period_invariant_amended :
    (∀ (cell : Cell) (s : ClassSession),
      ScheduleCrawler._parse_class_cell cell = some s →
      (s.period_begin, s.period_end) =
        ScheduleCrawler._parse_period s.period.data ∧
      (¬ ScheduleCrawler.Resolvable s.period.data →
        (s.period_begin, s.period_end) = (0, 0))) ∧
    (∀ (spans : List String) (s : StudentSession),
      StudentScheduleCrawler._create_session_from_spans spans = some s →
      (s.period_begin, s.period_end) =
        StudentScheduleCrawler._parse_period s.period.data ∧
      (¬ StudentScheduleCrawler.Resolvable s.period.data →
        (s.period_begin, s.period_end) = (0, 0))) ∧
    (∀ cell : Cell, 7 ≤ (cellSpans cell).length →
      (ScheduleCrawler._parse_class_cell cell).isSome = true) ∧
    (∀ spans : List String, 6 ≤ spans.length →
      (StudentScheduleCrawler._create_session_from_spans spans).isSome = true) := by
  refine ⟨?_, ?_, ?_, ?_⟩
  · intro cell s h
    unfold ScheduleCrawler._parse_class_cell at h
    rcases hl : cellSpans cell with _ | ⟨s0, _ | ⟨s1, _ | ⟨s2, _ | ⟨s3,
      _ | ⟨s4, _ | ⟨s5, _ | ⟨s6, rest⟩⟩⟩⟩⟩⟩⟩ <;> rw [hl] at h <;> simp at h
    subst h
    constructor
    · rfl
    · intro hnr
      have := inst_parse_sentinel _ hnr
      rw [show (String.mk
          (pyStripL (pyReplaceL "-Tiết:".data [] s3.data))).data =
          pyStripL (pyReplaceL "-Tiết:".data [] s3.data) from rfl] at this
      simp [this]
  · intro spans s h
    unfold StudentScheduleCrawler._create_session_from_spans at h
    rcases spans with _ | ⟨s0, _ | ⟨s1, _ | ⟨s2, _ | ⟨s3,
      _ | ⟨s4, _ | ⟨s5, rest⟩⟩⟩⟩⟩⟩ <;> simp at h
    subst h
    constructor
    · rfl
    · intro hnr
      have := student_parse_sentinel _ hnr
      rw [show (String.mk (pyStripL s3.data)).data =
          pyStripL s3.data from rfl] at this
      simp [this]
  · intro cell h
    unfold ScheduleCrawler._parse_class_cell
    rcases hl : cellSpans cell with _ | ⟨s0, _ | ⟨s1, _ | ⟨s2, _ | ⟨s3,
      _ | ⟨s4, _ | ⟨s5, _ | ⟨s6, rest⟩⟩⟩⟩⟩⟩⟩ <;> rw [hl] at h <;>
      simp at h ⊢
  · intro spans h
    unfold StudentScheduleCrawler._create_session_from_spans
    rcases spans with _ | ⟨s0, _ | ⟨s1, _ | ⟨s2, _ | ⟨s3,
      _ | ⟨s4, _ | ⟨s5, rest⟩⟩⟩⟩⟩⟩ <;> simp at h ⊢

/-- Witness for the amended C5 theorem on a well-formed instructor cell and a
well-formed student span run. -/
theorem session_period_invariant_amended_witness :
    (∃ s : ClassSession,
      ScheduleCrawler._parse_class_cell
        [Block.span "Toán", Block.span "-Mã LHP:C01", Block.span "-Lớp:K45",
         Block.span "-Tiết:1->2", Block.span "-Đã dạy:10",
         Block.span "-Phòng :P101", Block.span "-Nội dung :"] = some s ∧
      (s.period_begin, s.period_end) =
        ScheduleCrawler._parse_period s.period.data) ∧
    (StudentScheduleCrawler._create_session_from_spans
      ["Toán", "- Nhóm: A", "- Lớp: K45", "- Tiết: 3-4", "- Phòng: P1",
       "- GV: X"]).isSome = true := by
  constructor
  · refine ⟨{ subject := "Toán", class_code := "C01", class_name := "K45"
              period := "1->2", period_begin := 1, period_end := 2
              taught_lessons := "10", room := "P101", content := "" },
      by decide, ?_⟩
    exact (session_period_invariant_amended.1
      [Block.span "Toán", Block.span "-Mã LHP:C01", Block.span "-Lớp:K45",
       Block.span "-Tiết:1->2", Block.span "-Đã dạy:10",
       Block.span "-Phòng :P101", Block.span "-Nội dung :"]
      { subject := "Toán", class_code := "C01", class_name := "K45"
        period := "1->2", period_begin := 1, period_end := 2
        taught_lessons := "10", room := "P101", content := "" }
      (by decide)).1
  · exact session_period_invariant_amended.2.2.2 _ (by decide)

/-- C2 counterexample: in student mode a header block whose bold `div` is
absent makes header parsing raise, and the exception is not caught at the call
site — `_extract_metadata` propagates an error instead of returning sentinel
metadata, so the fetch fails rather than succeeding as the claim states for
both modes. -/
theorem student_header_exception_counterexample :
    StudentScheduleCrawler._extract_metadata
      { table := some [], headerSpans := none } =
      .error "AttributeError: NoneType object has no attribute find_all" := by
  rfl

/-- C2 (amended): in instructor mode every header-parsing failure (missing
header block, fewer than two spans, digit-free week run, fewer than two
`DD/MM/YYYY` matches) is caught at the call site and degraded to the
all-unknown `WeekInfo` sentinel, and `to_json_structure` still succeeds,
embedding the sentinel metadata; in student mode the header exception is not
caught — a page without the header block makes `_extract_metadata` propagate
the error, failing the fetch. -/
theorem header_degrade_amended :
    (∀ page : HtmlPage, ScheduleCrawler.HeaderFails page →
      ScheduleCrawler._extract_week_info page =
        ScheduleCrawler.unknownWeekInfo) ∧
    (∀ (page : HtmlPage) (sched : List (String × DaySchedule)),
      ScheduleCrawler.HeaderFails page →
      ScheduleCrawler.to_json_structure sched page =
        ScheduleCrawler.jsonStructureVal ScheduleCrawler.unknownWeekInfo sched) ∧
    (∀ page : HtmlPage, page.headerSpans = none →
      StudentScheduleCrawler._extract_metadata page =
        .error "AttributeError: NoneType object has no attribute find_all") := by
  have hmain : ∀ page : HtmlPage, ScheduleCrawler.HeaderFails page →
      ScheduleCrawler._extract_week_info page =
        ScheduleCrawler.unknownWeekInfo := by
    intro page hf
    unfold ScheduleCrawler._extract_week_info
    rcases hf with h | ⟨spans, h, hlen⟩ | ⟨s0, s1, rest, h, hbad⟩
    · rw [h]
    · rw [h]
      rcases spans with _ | ⟨a, _ | ⟨b, t⟩⟩
      · rfl
      · rfl
      · simp at hlen
        omega
    · rw [h]
      rcases hbad with hd | hdates
      · simp [hd]
      · by_cases hds : (weekNumDigits (pyStripL s0.data)).isEmpty
        · simp [hds]
        · simp only [hds, Bool.false_eq_true, if_false]
          rcases hfd : findAllDates (pyStripL s0.data) with _ | ⟨d1, _ | ⟨d2, t⟩⟩
          · rfl
          · rfl
          · rw [hfd] at hdates
            simp at hdates
            omega
  refine ⟨hmain, ?_, ?_⟩
  · intro page sched hf
    unfold ScheduleCrawler.to_json_structure
    rw [hmain page hf]
  · intro page h
    unfold StudentScheduleCrawler._extract_metadata
    rw [h]

/-- Witness for the amended C2 theorem at a page with one header span holding
a single date. -/
theorem header_degrade_amended_witness :
    ScheduleCrawler._extract_week_info
      { table := some [], headerSpans := some ["Tuần 3: 10/02/2025"] } =
      ScheduleCrawler.unknownWeekInfo ∧
    StudentScheduleCrawler._extract_metadata
      { table := some [], headerSpans := none } =
      .error "AttributeError: NoneType object has no attribute find_all" := by
  constructor
  · exact header_degrade_amended.1
      { table := some [], headerSpans := some ["Tuần 3: 10/02/2025"] }
      (.inr (.inl ⟨["Tuần 3: 10/02/2025"], rfl, by decide⟩))
  · exact header_degrade_amended.2.2
      { table := some [], headerSpans := none } rfl

/-- C6: in both modes, markup in which no schedule table can be located fails
the whole parse with an error propagated to the caller — student mode raises
its explicit structural error, instructor mode lets the `AttributeError`
escape — and no (partial) schedule value is returned. -/
theorem missing_table_is_fatal (page : HtmlPage) (h : page.table = none) :
    ScheduleCrawler.parse_schedule page =
      .error "AttributeError: NoneType object has no attribute find_all" ∧
    StudentScheduleCrawler.parse_schedule page =
      .error "Schedule table not found in HTML content" := by
  constructor
  · unfold ScheduleCrawler.parse_schedule
    rw [h]
  · unfold StudentScheduleCrawler.parse_schedule
    rw [h]

/-- Witness for the missing-table theorem at a concrete table-less page. -/
theorem missing_table_is_fatal_witness :
    ScheduleCrawler.parse_schedule { table := none, headerSpans := none } =
      .error "AttributeError: NoneType object has no attribute find_all" ∧
    StudentScheduleCrawler.parse_schedule { table := none, headerSpans := none } =
      .error "Schedule table not found in HTML content" :=
  missing_table_is_fatal { table := none, headerSpans := none } rfl

/-- C4: the period table maps exactly the indices 1–14; period 1 starts at
07:30, period 7 at 13:00, period 11 at 16:40; every period lasts 45 minutes
with its start strictly before its end; within each block consecutive periods
do not overlap, with 5-minute default gaps, a 20-minute gap after period 3, a
10-minute gap after period 8, and a flat 50-minute stride between evening
starts. -/
theorem period_table_shape :
    StudentScheduleCrawler.periodsMin.map Prod.fst =
      [1, 2, 3, 4, 5, 6, 7, 8, 9, 10, 11, 12, 13, 14] ∧
    StudentScheduleCrawler.period_map 1 = some ("07:30", "08:15") ∧
    StudentScheduleCrawler.period_map 7 = some ("13:00", "13:45") ∧
    StudentScheduleCrawler.period_map 11 = some ("16:40", "17:25") ∧
    (∀ e ∈ StudentScheduleCrawler.periodsMin,
      e.2.2 = e.2.1 + 45 ∧ e.2.1 < e.2.2) ∧
    (∀ pq ∈ [((1 : Int), (2 : Int)), (2, 3), (3, 4), (4, 5), (5, 6), (7, 8),
        (8, 9), (9, 10), (11, 12), (12, 13), (13, 14)],
      StudentScheduleCrawler.endOfPeriod pq.1 ≤
        StudentScheduleCrawler.startOfPeriod pq.2) ∧
    StudentScheduleCrawler.startOfPeriod 4 -
      StudentScheduleCrawler.endOfPeriod 3 = 20 ∧
    StudentScheduleCrawler.startOfPeriod 9 -
      StudentScheduleCrawler.endOfPeriod 8 = 10 ∧
    (∀ pq ∈ [((1 : Int), (2 : Int)), (2, 3), (4, 5), (5, 6), (7, 8), (9, 10),
        (11, 12), (12, 13), (13, 14)],
      StudentScheduleCrawler.startOfPeriod pq.2 -
        StudentScheduleCrawler.endOfPeriod pq.1 = 5) ∧
    (∀ pq ∈ [((11 : Int), (12 : Int)), (12, 13), (13, 14)],
      StudentScheduleCrawler.startOfPeriod pq.2 -
        StudentScheduleCrawler.startOfPeriod pq.1 = 50) := by
  decide

/-- C9: a student-mode span run with at least 6 fields always yields a session
(the out-of-range index does not fail the call), and whenever the resolved
`period_begin` (resp. `period_end`) is not a key of the period table, the
session's `time_begin` (resp. `time_end`) is the sentinel `"00:00"`. -/
theorem out_of_range_period_sentinel (spans : List String)
    (h : 6 ≤ spans.length) :
    ∃ s : StudentSession,
      StudentScheduleCrawler._create_session_from_spans spans = some s ∧
      (StudentScheduleCrawler.period_map s.period_begin = none →
        s.time_begin = "00:00") ∧
      (StudentScheduleCrawler.period_map s.period_end = none →
        s.time_end = "00:00") := by
  rcases spans with _ | ⟨s0, _ | ⟨s1, _ | ⟨s2, _ | ⟨s3,
    _ | ⟨s4, _ | ⟨s5, rest⟩⟩⟩⟩⟩⟩
  iterate 6 simp at h
  refine ⟨_, rfl, ?_, ?_⟩
  · intro hn
    simp only [StudentScheduleCrawler._create_session_from_spans] at hn ⊢
    rw [hn]
  · intro hn
    simp only [StudentScheduleCrawler._create_session_from_spans] at hn ⊢
    rw [hn]

/-- Witness for the out-of-range-period theorem at a run whose period label
`"15-16"` lies outside the table. -/
theorem out_of_range_period_sentinel_witness :
    6 ≤ (["Toán", "- Nhóm: A", "- Lớp: K45", "- Tiết: 15-16", "- Phòng: P1",
      "- GV: X"] : List String).length ∧
    ∃ s : StudentSession,
      StudentScheduleCrawler._create_session_from_spans
        ["Toán", "- Nhóm: A", "- Lớp: K45", "- Tiết: 15-16", "- Phòng: P1",
         "- GV: X"] = some s ∧
      (StudentScheduleCrawler.period_map s.period_begin = none →
        s.time_begin = "00:00") ∧
      (StudentScheduleCrawler.period_map s.period_end = none →
        s.time_end = "00:00") :=
  ⟨by decide, out_of_range_period_sentinel _ (by decide)⟩

/-- One serialized instructor session reads back unchanged. -/
theorem inst_session_roundtrip (s : ClassSession) :
    ScheduleCrawler.sessionOfDict (ScheduleCrawler.classSessionDict s) =
      some s := by
  rfl

/-- A serialized instructor session list reads back unchanged. -/
theorem inst_slot_roundtrip (l : List ClassSession) :
    omap ScheduleCrawler.sessionOfDict
      (l.map ScheduleCrawler.classSessionDict) = some l := by
  induction l with
  | nil => rfl
  | cons s t ih => simp [omap, inst_session_roundtrip, ih]

/-- A serialized day schedule reads back unchanged. -/
theorem inst_day_roundtrip (d : DaySchedule) :
    ScheduleCrawler.dayScheduleOfDict (ScheduleCrawler.dayScheduleDict d) =
      some d := by
  simp [ScheduleCrawler.dayScheduleOfDict, ScheduleCrawler.dayScheduleDict,
    Val.get?, List.lookup, ScheduleCrawler.slotOfVal, inst_slot_roundtrip]

/-- Serialized day entries read back unchanged. -/
theorem inst_entries_roundtrip (sched : List (String × DaySchedule)) :
    ScheduleCrawler.entriesOfList
      (sched.map fun d => (d.1, ScheduleCrawler.dayScheduleDict d.2)) =
      some sched := by
  induction sched with
  | nil => rfl
  | cons e rest ih =>
    simp [ScheduleCrawler.entriesOfList, inst_day_roundtrip, ih]

/-- C7: serializing a weekly schedule (metadata plus day-keyed slot lists)
into the nested-mapping form and reading that mapping back reproduces every
defined field of every session, and likewise for a serialized student
session — the serialization is lossless. -/
theorem nested_mapping_roundtrip :
    (∀ (w : WeekInfo) (sched : List (String × DaySchedule)),
      ScheduleCrawler.weeklyOfJson (ScheduleCrawler.jsonStructureVal w sched) =
        some (w, sched)) ∧
    (∀ s : StudentSession,
      StudentScheduleCrawler.sessionOfDict (StudentScheduleCrawler.to_dict s) =
        some s) := by
  constructor
  · intro w sched
    simp [ScheduleCrawler.weeklyOfJson, ScheduleCrawler.jsonStructureVal,
      Val.get?, List.lookup, ScheduleCrawler.weekInfoOfDict,
      ScheduleCrawler.weekInfoDict, getS, getI,
      ScheduleCrawler.scheduleOfVal, inst_entries_roundtrip]
  · intro s
    rfl

/-- C8: with the event identifiers and the creation timestamp injected (held
fixed), generating the calendar document from equal schedule values yields
byte-identical text, in both the instructor and the student exporter. -/
theorem calendar_generation_deterministic (uids : Nat → String)
    (stamp : String) (d1 d2 : Val) (h : d1 = d2) :
    ICSExporter.create_ics_content_from_data uids stamp d1 =
      ICSExporter.create_ics_content_from_data uids stamp d2 ∧
    StudentICSExporter.create_ics_content_from_data uids stamp d1 =
      StudentICSExporter.create_ics_content_from_data uids stamp d2 := by
  subst h
  exact ⟨rfl, rfl⟩

/-- Witness for the determinism theorem at a concrete schedule value. -/
theorem calendar_generation_deterministic_witness :
    ICSExporter.create_ics_content_from_data (fun _ => "U") "S"
        (Val.obj []) =
      ICSExporter.create_ics_content_from_data (fun _ => "U") "S"
        (Val.obj []) ∧
    StudentICSExporter.create_ics_content_from_data (fun _ => "U") "S"
        (Val.obj []) =
      StudentICSExporter.create_ics_content_from_data (fun _ => "U") "S"
        (Val.obj []) :=
  calendar_generation_deterministic (fun _ => "U") "S" (Val.obj [])
    (Val.obj []) rfl

/-- If the instructor exporter's day loop succeeds, every day name in the
schedule was found in `day_map`. -/
theorem daysLines_ok_known (uids : Nat → String) (stamp : String)
    (base : Date) :
    ∀ (entries : List (String × Val)) (i : Nat) (r : List String × Nat),
      ICSExporter.daysLines uids stamp base entries i = .ok r →
      ∀ p ∈ entries, (ICSExporter.day_map.lookup p.1).isSome = true := by
  intro entries
  induction entries with
  | nil =>
    intro i r h p hp
    simp at hp
  | cons e rest ih =>
    intro i r h p hp
    obtain ⟨day, dv⟩ := e
    unfold ICSExporter.daysLines at h
    split at h
    · exact Except.noConfusion h
    next off hl =>
      split at h
      · exact Except.noConfusion h
      next l1 i1 hdl =>
        split at h
        · exact Except.noConfusion h
        next l2 i2 hds =>
          rcases List.mem_cons.mp hp with rfl | hp2
          · simp [hl]
          · exact ih i1 (l2, i2) hds p hp2

/-- C10: a schedule mapping containing a day-name key outside the fixed seven
Vietnamese labels makes the exporter's public entry point return an explicit
error wrapped in `Failed to create ICS content`, rather than skipping the day
or emitting a document. -/
theorem unknown_day_fails_export (uids : Nat → String) (stamp : String)
    (md : Val) (entries : List (String × Val)) (day : String) (dv : Val)
    (hmem : (day, dv) ∈ entries)
    (hunk : ICSExporter.day_map.lookup day = none) :
    ∃ e, ICSExporter.create_ics_content_from_data uids stamp
      (Val.obj [("metadata", md), ("schedule", Val.obj entries)]) =
      .error ("Failed to create ICS content: " ++ e) := by
  cases hg : ICSExporter._generate_ics_content uids stamp
      (Val.obj [("metadata", md), ("schedule", Val.obj entries)]) with
  | error e =>
    refine ⟨e, ?_⟩
    unfold ICSExporter.create_ics_content_from_data
    rw [hg]
  | ok s =>
    exfalso
    unfold ICSExporter._generate_ics_content at hg
    rw [show ICSExporter.getKey
        (Val.obj [("metadata", md), ("schedule", Val.obj entries)])
        "metadata" = .ok md from rfl] at hg
    rw [show ICSExporter.getKey
        (Val.obj [("metadata", md), ("schedule", Val.obj entries)])
        "schedule" = .ok (Val.obj entries) from rfl] at hg
    simp only [] at hg
    split at hg
    · exact Except.noConfusion hg
    next sd hsd =>
      split at hg
      next sdStr =>
        split at hg
        · exact Except.noConfusion hg
        next base hbase =>
          split at hg
          · exact Except.noConfusion hg
          next evs i hdays =>
            have hk := daysLines_ok_known uids stamp base entries 0 (evs, i)
              hdays (day, dv) hmem
            rw [hunk] at hk
            exact Bool.false_ne_true hk
      next hother => exact Except.noConfusion hg

/-- Witness for the unknown-day theorem at the day name `"Thứ 8"`. -/
theorem unknown_day_fails_export_witness :
    ("Thứ 8", Val.obj []) ∈ [("Thứ 8", Val.obj [])] ∧
    ∃ e, ICSExporter.create_ics_content_from_data (fun _ => "U") "S"
      (Val.obj [("metadata", Val.obj [("start_date", Val.str "10/02/2025")]),
        ("schedule", Val.obj [("Thứ 8", Val.obj [])])]) =
      .error ("Failed to create ICS content: " ++ e) :=
  ⟨List.mem_singleton.mpr rfl,
    unknown_day_fails_export (fun _ => "U") "S"
      (Val.obj [("start_date", Val.str "10/02/2025")])
      [("Thứ 8", Val.obj [])] "Thứ 8" (Val.obj [])
      (List.mem_singleton.mpr rfl) rfl⟩

set_option maxRecDepth 8192 in
/-- C1: on the two-row instructor page where only the Thứ 2 morning cell has 7
well-formed fields, parsing yields a weekly schedule with exactly one session;
generating the calendar document from that schedule (identifiers and
timestamp injected) yields text with exactly one `VEVENT` block, whose
`SUMMARY` is `Toán` and whose `DTSTART`/`DTEND` carry the Period Table start
of period 1 (`07:30`) and end of period 2 (`09:05`) on the Thứ 2 date
`10/02/2025`. -/
theorem instructor_end_to_end_scenario :
    ScheduleCrawler.parse_schedule c1Page = .ok c1Sched ∧
    ScheduleCrawler.sessionCount c1Sched = 1 ∧
    (ScheduleCrawler.enrichedJsonStructure c1Page).bind
      (ICSExporter.create_ics_content_from_data c1Uids c1Stamp) = .ok c1Doc ∧
    countSub c1Doc "BEGIN:VEVENT" = 1 ∧
    "SUMMARY:Toán" ∈ c1DocLines ∧
    StudentScheduleCrawler.period_map 1 = some ("07:30", "08:15") ∧
    StudentScheduleCrawler.period_map 2 = some ("08:20", "09:05") ∧
    ICSExporter._format_datetime "10/02/2025" "07:30" = .ok "20250210T073000" ∧
    ICSExporter._format_datetime "10/02/2025" "09:05" = .ok "20250210T090500" ∧
    "DTSTART;TZID=Asia/Ho_Chi_Minh:20250210T073000" ∈ c1DocLines ∧
    "DTEND;TZID=Asia/Ho_Chi_Minh:20250210T090500" ∈ c1DocLines := by
  refine ⟨rfl, rfl, rfl, by decide, by decide, by decide, by decide,
    rfl, rfl, by decide, by decide⟩
